import Mathlib

/-!
Verification of the action registration and dispatch pipeline of
pip-services3-gcp-python: a shallow embedding of
`services/CloudFunctionService.py` and `containers/CommandableCloudFunction.py`,
with theorems settling the specification claims about interceptor composition,
schema validation, authorization wrapping, error composition, instrumentation
timing, lifecycle (open/close), and command result formatting.
-/

namespace PipGcp

/-! ## Requests and responses

A `flask.Request` exposes query parameters (`req.args`) and a parsed JSON body
(`req.json`).  `flask.Request` objects are always truthy, so the `if schema and
req:` guard in `_apply_validation` reduces to the schema check; we model a
request as always present. -/

structure Request where
  args : List (String × String)
  body : Option String
  deriving Repr, DecidableEq

/-- Values a wrapped handler can return: either a built `flask.Response`
(body, status, headers) — as produced by `_compose_error` — or an arbitrary
application value, represented by a tag. -/
inductive Resp where
  | flaskResp (body : String) (status : Int) (headers : List (String × String))
  | value (n : Nat)
  deriving Repr, DecidableEq

/-! ## Error objects and `_compose_error`

A Python exception's `__dict__` carries the eight attributes touched by
`_compose_error`; a missing or `None` attribute is `none`. -/

structure ErrObj where
  code : Option String
  status : Option Int
  message : Option String
  name : Option String
  details : Option String
  component : Option String
  stack : Option String
  cause : Option String
  deriving Repr, DecidableEq

/-- The `basic_fillers` dict of `_compose_error`:
`{'code': 'Undefined', 'status': 500, 'message': 'Unknown error', 'name': None,
'details': None, 'component': None, 'stack': None, 'cause': None}`.
Represented as the error object whose attributes are exactly those values
(this is also what `type('error', (object,), basic_fillers)` builds for a
null input error). -/
def basicFillers : ErrObj :=
  { code := some "Undefined", status := some 500, message := some "Unknown error",
    name := none, details := none, component := none, stack := none, cause := none }

/-- One iteration of the filling loop:
`error.__dict__[k] = v if error.__dict__.get(k) is None else error.__dict__[k]`
— keep the current attribute when set, otherwise store the filler value. -/
def fillAttr {α : Type} (filler : Option α) (cur : Option α) : Option α :=
  match cur with
  | none => filler
  | some v => some v

theorem fillAttr_none {α : Type} (x : Option α) : fillAttr none x = x := by
  cases x <;> rfl

theorem fillAttr_filled {α : Type} (d : α) : fillAttr (some d) none = some d := rfl

theorem fillAttr_keep {α : Type} (f : Option α) (v : α) :
    fillAttr f (some v) = some v := rfl

/-- The `for k, v in basic_fillers.items()` loop of `_compose_error`, applied to
the error object's eight attributes. -/
def fillDefaults (e : ErrObj) : ErrObj :=
  { code := fillAttr basicFillers.code e.code,
    status := fillAttr basicFillers.status e.status,
    message := fillAttr basicFillers.message e.message,
    name := fillAttr basicFillers.name e.name,
    details := fillAttr basicFillers.details e.details,
    component := fillAttr basicFillers.component e.component,
    stack := fillAttr basicFillers.stack e.stack,
    cause := fillAttr basicFillers.cause e.cause }

/-- The wire-format Error Description of spec section 6: `code`, `status` and
`message` are non-null after default filling; the remaining fields may be
null. -/
structure ErrDesc where
  code : String
  status : Int
  message : String
  name : Option String
  details : Option String
  component : Option String
  stack : Option String
  cause : Option String
  deriving Repr, DecidableEq

/-- Modelled from the spec: `ErrorDescriptionFactory.create` lives in the
external `pip_services3_commons` package, not under src/.  Per sections 4.6
and 6 it builds the Error Description from the incoming failure, every unset
field filled with its documented default (`code="Undefined"`, `status=500`,
`message="Unknown error"`, others null). -/
def errorDescriptionCreate (e : ErrObj) : ErrDesc :=
  { code := e.code.getD "Undefined",
    status := e.status.getD 500,
    message := e.message.getD "Unknown error",
    name := e.name,
    details := e.details,
    component := e.component,
    stack := e.stack,
    cause := e.cause }

/-- Modelled from the spec: the captured stack trace attached by the composer
(`traceback.format_exc()` in the source); its contents are opaque here. -/
def tracebackText : String := "captured-stack-trace"

/-- Modelled from the spec: `JsonConverter.to_json` serialization of an
Error Description into the wire error format of section 6. -/
def jsonOptStr (v : Option String) : String :=
  match v with
  | none => "null"
  | some s => "\"" ++ s ++ "\""

def jsonOfErrDesc (e : ErrDesc) : String :=
  "\x7b \"code\": \"" ++ e.code ++ "\", \"status\": " ++ toString e.status ++
    ", \"message\": \"" ++ e.message ++ "\", \"name\": " ++ jsonOptStr e.name ++
    ", \"details\": " ++ jsonOptStr e.details ++
    ", \"component\": " ++ jsonOptStr e.component ++
    ", \"stack\": " ++ jsonOptStr e.stack ++
    ", \"cause\": " ++ jsonOptStr e.cause ++ " \x7d"

/-- The Error Description produced inside `_compose_error`: a null input error
is replaced by `type('error', (object,), basic_fillers)`; otherwise the error
object is default-filled in place; then the description is created and its
stack trace overwritten with the captured traceback. -/
def composedDescription (error : Option ErrObj) : ErrDesc :=
  let e : ErrObj :=
    match error with
    | none => basicFillers
    | some err => fillDefaults err
  { errorDescriptionCreate e with stack := some tracebackText }

/-- The `_compose_error` method: returns
`flask.Response(JsonConverter.to_json(error), status=error.status, headers=headers)`
with `headers = {'Content-Type': 'application/json'}`. -/
def composeError (error : Option ErrObj) : Resp :=
  Resp.flaskResp (jsonOfErrDesc (composedDescription error))
    (composedDescription error).status
    [("Content-Type", "application/json")]

/-- An error carrying only `status=404`, as in the spec's testable property on
error default-filling. -/
def onlyStatus404 : ErrObj :=
  { code := none, status := some 404, message := none, name := none,
    details := none, component := none, stack := none, cause := none }

/-- Claim-side restatement of the in-place default filling described by C10:
each of `code`, `status`, `message` is assigned its default when absent and
kept when set; the filler for the remaining five fields is `None`, so they are
left exactly as they were. -/
def claimFieldMerge (e : ErrObj) : ErrObj :=
  { code := some (e.code.getD "Undefined"),
    status := some (e.status.getD 500),
    message := some (e.message.getD "Unknown error"),
    name := e.name,
    details := e.details,
    component := e.component,
    stack := e.stack,
    cause := e.cause }

/-- C4: for every input to `_compose_error`, the returned HTTP response carries
status equal to the composed description's `status` field and a
`Content-Type: application/json` header; each unset field of the error is
filled with its documented default while set fields are preserved; a null
input yields the fully-default description (status 500, "Unknown error"); an
error with only `status=404` keeps that status. -/
theorem c4_compose_error_response :
    (∀ e : Option ErrObj, ∃ body,
        composeError e =
          Resp.flaskResp body (composedDescription e).status
            [("Content-Type", "application/json")]) ∧
    (∀ err : ErrObj,
        composedDescription (some err) =
          { code := err.code.getD "Undefined", status := err.status.getD 500,
            message := err.message.getD "Unknown error", name := err.name,
            details := err.details, component := err.component,
            stack := some tracebackText, cause := err.cause }) ∧
    composedDescription none =
      { code := "Undefined", status := 500, message := "Unknown error",
        name := none, details := none, component := none,
        stack := some tracebackText, cause := none } ∧
    composedDescription (some onlyStatus404) =
      { code := "Undefined", status := 404, message := "Unknown error",
        name := none, details := none, component := none,
        stack := some tracebackText, cause := none } := by
  refine ⟨fun e => ⟨_, rfl⟩, fun err => ?_, rfl, rfl⟩
  cases err with
  | mk code status message name details component stack cause =>
    cases code <;> cases status <;> cases message <;>
      simp [composedDescription, fillDefaults, fillAttr_none, fillAttr_filled,
        fillAttr_keep, basicFillers, errorDescriptionCreate]

/-- C10: the default-filling pass of `_compose_error` updates the error
object's eight attributes exactly as the claim states: every attribute among
`code`, `status`, `message` that was absent or `None` on entry is assigned its
default, attributes already set retain their prior values, and the five
attributes whose filler is `None` are unchanged. -/
theorem c10_fill_defaults_frame :
    ∀ err : ErrObj, fillDefaults err = claimFieldMerge err := by
  intro err
  cases err with
  | mk code status message name details component stack cause =>
    cases code <;> cases status <;> cases message <;> cases name <;>
      cases details <;> cases component <;> cases stack <;> cases cause <;>
      rfl

/-! ## Validation wrapper (`_apply_validation`)

The wrapper merges `req.args.to_dict()` with `{'body': req.json}`, runs
`schema.validate_and_return_exception`, returns `self._compose_error(err)` on a
validation error, and otherwise calls the inner action on the original
request.  The schema validator lives in the external `pip_services3_commons`
package; it is treated as the spec treats it, an opaque pass/fail oracle
producing a structured error. -/

structure Params where
  query : List (String × String)
  body : Option String
  deriving Repr, DecidableEq

/-- The merged parameter set: `params = req.args.to_dict()` updated with
`{'body': req.json}`. -/
def mergedParams (req : Request) : Params :=
  { query := req.args, body := req.body }

/-- A validation schema, abstracted to the outcome of
`validate_and_return_exception`: `none` for pass, `some err` for the
structured validation error. -/
structure Schema where
  validateResult : Params → Option ErrObj

/-- The `_apply_validation` method.  A registered schema of `none` (Python
`None`) is falsy, so the guard `if schema and req:` skips validation;
`flask.Request` objects are always truthy, so the request side of the guard
always passes. -/
def applyValidation (schema : Option Schema) (action : Request → Resp) :
    Request → Resp :=
  fun req =>
    match schema with
    | none => action req
    | some s =>
      match s.validateResult (mergedParams req) with
      | some err => composeError (some err)
      | none => action req

/-- C2: for an action registered with a schema, a request whose merged
parameter set fails validation never reaches the underlying handler — the
wrapper's result is the Error Composer's response for the validation error and
is independent of the handler — while on validation success the inner handler
is invoked with the original, unmodified request. -/
theorem c2_validation_gate (s : Schema) (act : Request → Resp) (req : Request) :
    (∀ err : ErrObj, s.validateResult (mergedParams req) = some err →
        applyValidation (some s) act req = composeError (some err) ∧
        ∀ act₂ : Request → Resp,
          applyValidation (some s) act req = applyValidation (some s) act₂ req) ∧
    (s.validateResult (mergedParams req) = none →
        applyValidation (some s) act req = act req) := by
  constructor
  · intro err herr
    constructor
    · simp [applyValidation, herr]
    · intro act₂
      simp [applyValidation, herr]
  · intro hok
    simp [applyValidation, hok]

/-- A request used to instantiate the theorems at concrete inputs. -/
def reqSample : Request := { args := [("id", "1")], body := some "\x7b\x7d" }

/-- A concrete validation error. -/
def errSample : ErrObj :=
  { code := some "INVALID_DATA", status := some 400,
    message := some "Validation failed", name := none, details := none,
    component := none, stack := none, cause := none }

/-- A schema that rejects every parameter set with `errSample`. -/
def failingSchema : Schema := { validateResult := fun _ => some errSample }

/-- A concrete handler. -/
def actSample : Request → Resp := fun _ => Resp.value 7

theorem c2_validation_gate_witness :
    applyValidation (some failingSchema) actSample reqSample =
      composeError (some errSample) :=
  ((c2_validation_gate failingSchema actSample reqSample).1 errSample rfl).1

/-! ## Interceptor chain (`_apply_interceptors`)

The Python source is

  action_wrapper = action
  index = len(self.__interceptors) - 1
  while index >= 0:
      interceptor = self.__interceptors[index]
      def action_wrapper(action): return lambda params: interceptor(
          params, action)(action_wrapper)
  return action_wrapper

The loop body rebinds `action_wrapper` but never modifies `index`, so the
loop's state is `(index, action_wrapper)` with `index` constant.  We embed the
loop with a fuel parameter; `none` models nontermination (the fuel runs out
with the loop condition still true). -/

def Interceptor : Type := Request → (Request → Resp) → Resp

/-- The value bound to the local name `action_wrapper`: either the incoming
action (its initial value), or the `def action_wrapper(action)` closure created
by a loop iteration — recorded with the index of the interceptor variable it
captures. -/
inductive PyWrapper where
  | base (action : Request → Resp)
  | redef (interceptorIndex : Nat)

/-- One iteration of the `while index >= 0:` loop: read
`self.__interceptors[index]` and rebind `action_wrapper` to the new def.
`index` is not changed. -/
def interceptorLoopBody (idx : Int) (_w : PyWrapper) : PyWrapper :=
  PyWrapper.redef idx.toNat

/-- The while loop of `_apply_interceptors`, fuel-indexed: returns `some w`
when the loop condition becomes false within `fuel` iterations, `none` when
the fuel is exhausted with the condition still true. -/
def applyInterceptorsLoop (fuel : Nat) (idx : Int) (w : PyWrapper) :
    Option PyWrapper :=
  if 0 ≤ idx then
    match fuel with
    | 0 => none
    | fuel + 1 => applyInterceptorsLoop fuel idx (interceptorLoopBody idx w)
  else some w

/-- The `_apply_interceptors` method: run the loop from
`index = len(self.__interceptors) - 1` on the incoming action. -/
def applyInterceptors (interceptors : List Interceptor) (action : PyWrapper)
    (fuel : Nat) : Option PyWrapper :=
  applyInterceptorsLoop fuel ((interceptors.length : Int) - 1) action

/-- When the loop is entered with a non-negative index, it never exits: the
body does not decrement `index`, so the condition stays true for every fuel. -/
theorem applyInterceptorsLoop_diverges (fuel : Nat) :
    ∀ (idx : Int) (w : PyWrapper), 0 ≤ idx →
      applyInterceptorsLoop fuel idx w = none := by
  induction fuel with
  | zero =>
    intro idx w h
    simp [applyInterceptorsLoop, h]
  | succ n ih =>
    intro idx w h
    simp only [applyInterceptorsLoop, if_pos h]
    exact ih idx (interceptorLoopBody idx w) h

/-- With no interceptors registered, the loop condition is false at entry
(`index = -1`) and the incoming action is returned unchanged. -/
theorem applyInterceptors_nil (action : PyWrapper) (fuel : Nat) :
    applyInterceptors [] action fuel = some action := by
  cases fuel <;> rfl

/-- Two concrete interceptors, for evaluating the divergence at the claim's
`[A, B]` ordering scenario. -/
def interceptorA : Interceptor := fun req next => next req

def interceptorB : Interceptor := fun req next => next req

/-- C1: refutation of the claimed interceptor composition.  With interceptors
registered in order `[A, B]`, building the composed handler at registration
never completes for any amount of fuel: the `while index >= 0:` loop of
`_apply_interceptors` never decrements `index`, so no composed handler in
which `A` runs before `B` is ever produced. -/
theorem c1_interceptor_composition_diverges (fuel : Nat)
    (act : Request → Resp) :
    applyInterceptors [interceptorA, interceptorB] (PyWrapper.base act) fuel =
      none := by
  have h : (0 : Int) ≤ ([interceptorA, interceptorB].length : Int) - 1 := by
    decide
  exact applyInterceptorsLoop_diverges fuel _ _ h

/-- C9: refutation of termination of `_apply_interceptors`.  For every
non-empty registered interceptor sequence, the method diverges for every fuel
bound, hence `_register_action` and `_register_action_with_auth` do not
terminate once any interceptor has been registered. -/
theorem c9_apply_interceptors_nonempty_diverges (ic : Interceptor)
    (ics : List Interceptor) (w : PyWrapper) (fuel : Nat) :
    applyInterceptors (ic :: ics) w fuel = none := by
  have h : (0 : Int) ≤ ((ic :: ics).length : Int) - 1 := by
    simp [List.length_cons]
  exact applyInterceptorsLoop_diverges fuel _ _ h

/-! ## Authorization wrapper (`_register_action_with_auth`)

The Python source is

  action_wrapper = self._apply_validation(schema, action)
  # Add authorization just before validation
  def action_wrapper(req): return authorize(req, action_wrapper)
  action_wrapper = self._apply_interceptors(action_wrapper)

The `def` statement rebinds the local name `action_wrapper`; the name
`action_wrapper` inside the def's body is resolved at call time against the
enclosing scope, where it now refers to the def itself (with zero registered
interceptors, `_apply_interceptors` returns its argument unchanged, so the
final rebinding does not change it).  The validation wrapper computed on the
first line is therefore unreachable: the `next` argument handed to `authorize`
is the authorization wrapper itself.

An authorization hook is modelled by the per-request decision it takes:
either answer with its own result without calling `next`, or call `next` on
the request it received. -/

inductive AuthDecision where
  | shortCircuit (resp : Resp)
  | callNext

/-- Call semantics of the handler stored by `_register_action_with_auth` (no
interceptors registered): each call evaluates `authorize(req, action_wrapper)`
where `action_wrapper` resolves to this same function, so `callNext` re-enters
it with the same request.  `fuel` bounds the recursion depth; `none` models
nontermination. -/
def authWrapperCall (authorize : Request → AuthDecision) :
    Nat → Request → Option Resp
  | 0, _ => none
  | fuel + 1, req =>
    match authorize req with
    | AuthDecision.shortCircuit r => some r
    | AuthDecision.callNext => authWrapperCall authorize fuel req

/-- C3: the short-circuit half of the claim holds — an authorization hook that
answers without calling `next` returns its own result, and neither validation
nor the action appears anywhere in the stored handler's call path — but the
pass-through half fails: an authorization hook that calls `next` re-enters the
authorization wrapper itself (the name `action_wrapper` was rebound to the def
before the closure is ever called), so the call diverges for every recursion
bound and the validation wrapper and underlying action are never invoked. -/
theorem c3_auth_wrapper_self_recursion :
    (∀ (fuel : Nat) (r : Resp),
        authWrapperCall (fun _ => AuthDecision.shortCircuit r) (fuel + 1)
          reqSample = some r) ∧
    (∀ fuel : Nat,
        authWrapperCall (fun _ => AuthDecision.callNext) fuel reqSample =
          none) := by
  constructor
  · intro fuel r
    rfl
  · intro fuel
    induction fuel with
    | zero => rfl
    | succ n ih => simpa [authWrapperCall] using ih

/-! ## Service lifecycle (`open`, `close`, `register`)

The mutable service state consists of the private fields `__name`, `__actions`,
`__interceptors` and `__opened` set up in `__init__`.  A registered action is a
`CloudFunctionAction` record (cmd, schema, wrapped handler), with the handler
that `_register_action` stores. -/

structure CloudFunctionAction where
  cmd : String
  schema : Option Schema
  action : PyWrapper

structure ServiceState where
  name : Option String
  actions : List CloudFunctionAction
  interceptors : List Interceptor
  opened : Bool

/-- The `_generate_action_cmd` method: prefix the action name with
`self.__name + '.'` when a service name is configured. -/
def generateActionCmd (name : Option String) (actionName : String) : String :=
  match name with
  | none => actionName
  | some n => n ++ "." ++ actionName

/-- A concrete subclass's `register()` body, as the sequence of registration
calls it makes: `_register_action(name, schema, action)` and
`_register_interceptor(action)` steps, executed in order against the service
state. -/
inductive RegStep where
  | regAction (name : String) (schema : Option Schema) (act : Request → Resp)
  | regInterceptor (ic : Interceptor)

/-- One registration call.  `_register_action` wraps the action with
validation, then with the interceptor chain (`none` when that diverges), and
appends a `CloudFunctionAction` with the namespaced command name.
`_register_interceptor` appends to `self.__interceptors`. -/
def runStep (fuel : Nat) (s : ServiceState) : RegStep → Option ServiceState
  | RegStep.regInterceptor ic =>
    some { s with interceptors := s.interceptors ++ [ic] }
  | RegStep.regAction name schema act =>
    match applyInterceptors s.interceptors
        (PyWrapper.base (applyValidation schema act)) fuel with
    | none => none
    | some w =>
      some { s with actions :=
        s.actions ++ [{ cmd := generateActionCmd s.name name,
                        schema := schema, action := w }] }

/-- A `register()` body run to completion: execute the registration calls in
order, `none` as soon as one diverges. -/
def runRegister (fuel : Nat) (steps : List RegStep) (s : ServiceState) :
    Option ServiceState :=
  match steps with
  | [] => some s
  | st :: rest =>
    match runStep fuel s st with
    | none => none
    | some s₁ => runRegister fuel rest s₁

/-- The `open` method: a no-op when already opened, otherwise run `register()`
and set `__opened = True`.  The second component counts how many times
`register()` was invoked by this call. -/
def openService (fuel : Nat) (steps : List RegStep) (s : ServiceState) :
    Option ServiceState × Nat :=
  if s.opened then (some s, 0)
  else
    match runRegister fuel steps s with
    | none => (none, 1)
    | some s₁ => (some { s₁ with opened := true }, 1)

/-- The `close` method: a no-op when not opened, otherwise clear the opened
flag, the action sequence and the interceptor sequence. -/
def closeService (s : ServiceState) : ServiceState :=
  if s.opened then
    { s with opened := false, actions := [], interceptors := [] }
  else s

theorem runStep_name (fuel : Nat) (s s₁ : ServiceState) (st : RegStep)
    (h : runStep fuel s st = some s₁) : s₁.name = s.name := by
  cases st with
  | regInterceptor ic =>
    simp only [runStep, Option.some.injEq] at h
    subst h
    rfl
  | regAction name schema act =>
    simp only [runStep] at h
    cases hai : applyInterceptors s.interceptors
        (PyWrapper.base (applyValidation schema act)) fuel with
    | none =>
      rw [hai] at h
      simp at h
    | some w =>
      rw [hai] at h
      simp only [Option.some.injEq] at h
      subst h
      rfl

theorem runRegister_name (fuel : Nat) (steps : List RegStep) :
    ∀ (s s₁ : ServiceState), runRegister fuel steps s = some s₁ →
      s₁.name = s.name := by
  induction steps with
  | nil =>
    intro s s₁ h
    simp [runRegister] at h
    subst h
    rfl
  | cons st rest ih =>
    intro s s₁ h
    simp only [runRegister] at h
    cases hstep : runStep fuel s st with
    | none => simp [hstep] at h
    | some s₂ =>
      rw [hstep] at h
      exact (ih s₂ s₁ h).trans (runStep_name fuel s s₂ st hstep)

/-- C6: opening a service that completed registration, then opening it again,
invokes `register()` exactly once across the two calls (once by the first
call, zero times by the second) and leaves the service state — in particular
the registered action sequence, its count and contents — unchanged after the
second call. -/
theorem c6_open_idempotent (fuel : Nat) (steps : List RegStep)
    (s s₁ : ServiceState) (hclosed : s.opened = false)
    (hreg : runRegister fuel steps s = some s₁) :
    openService fuel steps s = (some { s₁ with opened := true }, 1) ∧
    openService fuel steps { s₁ with opened := true } =
      (some { s₁ with opened := true }, 0) := by
  constructor
  · simp [openService, hclosed, hreg]
  · simp [openService]

/-- A concrete `register()` body: one schema-less action named `"op"`. -/
def stepsSample : List RegStep := [RegStep.regAction "op" none actSample]

/-- A freshly constructed service named `"svc"`. -/
def freshSample : ServiceState :=
  { name := some "svc", actions := [], interceptors := [], opened := false }

/-- The state after `register()` has run on the fresh service. -/
def regedSample : ServiceState :=
  { name := some "svc",
    actions := [{ cmd := "svc.op", schema := none,
                  action := PyWrapper.base (applyValidation none actSample) }],
    interceptors := [], opened := false }

theorem c6_open_idempotent_witness :
    openService 1 stepsSample freshSample =
      (some { regedSample with opened := true }, 1) ∧
    openService 1 stepsSample { regedSample with opened := true } =
      (some { regedSample with opened := true }, 0) :=
  c6_open_idempotent 1 stepsSample freshSample regedSample rfl rfl

/-- C7: closing an opened service clears both the action sequence and the
interceptor sequence, a second close is a no-op, and a subsequent open re-runs
`register()` from scratch, reproducing the same action names in the same
order as before the close. -/
theorem c7_close_reopen_roundtrip (fuel : Nat) (steps : List RegStep)
    (nm : Option String) (s₁ : ServiceState)
    (hreg : runRegister fuel steps
        { name := nm, actions := [], interceptors := [], opened := false } =
      some s₁) :
    closeService { s₁ with opened := true } =
      { name := nm, actions := [], interceptors := [], opened := false } ∧
    closeService (closeService { s₁ with opened := true }) =
      closeService { s₁ with opened := true } ∧
    openService fuel steps (closeService { s₁ with opened := true }) =
      (some { s₁ with opened := true }, 1) ∧
    ∀ s₂ : ServiceState,
      (openService fuel steps (closeService { s₁ with opened := true })).1 =
        some s₂ →
      s₂.actions.map (fun a => a.cmd) = s₁.actions.map (fun a => a.cmd) := by
  have hname : s₁.name = nm := runRegister_name fuel steps _ s₁ hreg
  have hclose : closeService { s₁ with opened := true } =
      { name := nm, actions := [], interceptors := [], opened := false } := by
    simp [closeService, hname]
  refine ⟨hclose, ?_, ?_, ?_⟩
  · rw [hclose]
    simp [closeService]
  · rw [hclose]
    simp [openService, hreg]
  · intro s₂ h₂
    rw [hclose] at h₂
    simp [openService, hreg] at h₂
    rw [← h₂]

theorem c7_close_reopen_roundtrip_witness :
    closeService { regedSample with opened := true } = freshSample ∧
    closeService (closeService { regedSample with opened := true }) =
      closeService { regedSample with opened := true } ∧
    openService 1 stepsSample (closeService { regedSample with opened := true }) =
      (some { regedSample with opened := true }, 1) :=
  ⟨(c7_close_reopen_roundtrip 1 stepsSample (some "svc") regedSample rfl).1,
    (c7_close_reopen_roundtrip 1 stepsSample (some "svc") regedSample rfl).2.1,
    (c7_close_reopen_roundtrip 1 stepsSample (some "svc") regedSample rfl).2.2.1⟩

/-! ## Command result formatting (`__to_response_format`)

A command result is `None`, a value of one of the passthrough classes
(`int`, `str`, `dict`, `tuple`, `list`, `bytes`, `float`, `flask.Response`),
or some other object, characterized by whether it has a `to_dict` attribute,
a `to_json` attribute, whether it is a `DataPage`, and (for a page) which of
its `data` items are dicts. -/

structure PageItem where
  isDict : Bool
  deriving Repr, DecidableEq

inductive ResValue where
  | pyNone
  | primitive (tag : String)
  | object (hasToDict : Bool) (hasToJson : Bool) (isDataPage : Bool)
      (pageItems : List PageItem)
  deriving Repr, DecidableEq

/-- The shapes `__to_response_format` can return: the `('', 204)` tuple, the
result unchanged, `res.to_dict()`, `res.to_json()` (recording whether the
DataPage items were first converted through a JSON round trip), or
`JsonConverter.to_json(res)`. -/
inductive FormattedResult where
  | emptyNoContent
  | passthrough (tag : String)
  | dictConverted
  | jsonConverted (itemsPreconverted : Bool)
  | genericJson
  deriving Repr, DecidableEq

/-- The `__to_response_format` method of `CommandableCloudFunction`. -/
def toResponseFormat : ResValue → FormattedResult
  | ResValue.pyNone => FormattedResult.emptyNoContent
  | ResValue.primitive tag => FormattedResult.passthrough tag
  | ResValue.object hasToDict hasToJson isDataPage pageItems =>
    if hasToDict then FormattedResult.dictConverted
    else if hasToJson then
      if isDataPage then
        match pageItems with
        | [] => FormattedResult.jsonConverted false
        | first :: _ =>
          if !first.isDict then FormattedResult.jsonConverted true
          else FormattedResult.jsonConverted false
      else FormattedResult.jsonConverted false
    else FormattedResult.genericJson

/-- C8: the command-set adapter's result normalization — `None` becomes the
empty-body 204 response; passthrough classes are returned unchanged; any other
object is converted with `to_dict` when present, else with `to_json` (a
`DataPage` whose first item is not a dict having its items converted first),
else with generic JSON serialization. -/
theorem c8_result_shape_normalization :
    toResponseFormat ResValue.pyNone = FormattedResult.emptyNoContent ∧
    (∀ tag : String,
        toResponseFormat (ResValue.primitive tag) =
          FormattedResult.passthrough tag) ∧
    (∀ (hj dp : Bool) (items : List PageItem),
        toResponseFormat (ResValue.object true hj dp items) =
          FormattedResult.dictConverted) ∧
    (∀ (b : Bool) (rest : List PageItem),
        toResponseFormat (ResValue.object false true true (⟨b⟩ :: rest)) =
          FormattedResult.jsonConverted !b) ∧
    (∀ dp : Bool,
        toResponseFormat (ResValue.object false true dp []) =
          FormattedResult.jsonConverted false) ∧
    (∀ items : List PageItem,
        toResponseFormat (ResValue.object false true false items) =
          FormattedResult.jsonConverted false) ∧
    (∀ (dp : Bool) (items : List PageItem),
        toResponseFormat (ResValue.object false false dp items) =
          FormattedResult.genericJson) := by
  refine ⟨rfl, fun tag => rfl, fun hj dp items => ?_, fun b rest => ?_,
    fun dp => ?_, fun items => ?_, fun dp items => rfl⟩
  · simp [toResponseFormat]
  · cases b <;> rfl
  · cases dp <;> rfl
  · cases items <;> rfl

/-! ## Command action instrumentation (`__register_command_set`)

The auto-registered action body is

  timing = self._instrument(...)
  try:
      result = command.execute(correlation_id, args)
      result = self.__to_response_format(result)
      return result
  except Exception as e:
      timing.end_failure(e)
      return self._compose_error(e)
  finally:
      timing.end_timing()

Calls on the timing handle and to the Error Composer are recorded as an event
trace; `command.execute` either returns a result value or raises. -/

inductive TimingEvent where
  | endFailure (e : ErrObj)
  | composeErrorCall (e : ErrObj)
  | endTiming
  deriving Repr, DecidableEq

def isEndTiming : TimingEvent → Bool
  | TimingEvent.endTiming => true
  | _ => false

/-- What the action returns: the formatted command result on the success path,
or the Error Composer's response on the failure path. -/
inductive CmdOutcome where
  | formatted (f : FormattedResult)
  | errorResp (r : Resp)
  deriving Repr, DecidableEq

/-- The try/except suite: the success path emits no timing events and returns
the formatted result; the failure path calls `timing.end_failure(e)` and then
`self._compose_error(e)` while building the return value. -/
def commandTryBody (execResult : Except ErrObj ResValue) :
    List TimingEvent × CmdOutcome :=
  match execResult with
  | Except.ok r => ([], CmdOutcome.formatted (toResponseFormat r))
  | Except.error e =>
    ([TimingEvent.endFailure e, TimingEvent.composeErrorCall e],
      CmdOutcome.errorResp (composeError (some e)))

/-- A `finally:` clause runs its events after the suite's, on both paths. -/
def runFinally (body : List TimingEvent × CmdOutcome)
    (fin : List TimingEvent) : List TimingEvent × CmdOutcome :=
  (body.1 ++ fin, body.2)

/-- The auto-registered command action, as the event trace it emits and the
value it returns. -/
def commandAction (execResult : Except ErrObj ResValue) :
    List TimingEvent × CmdOutcome :=
  runFinally (commandTryBody execResult) [TimingEvent.endTiming]

/-- C5: on every exit path of the auto-registered command action the timing
handle's `end_timing` is called exactly once; on the failure path the trace is
exactly `end_failure(e)` then the Error Composer call then `end_timing`, so
`end_failure` precedes the composition of the error into the HTTP response;
on the success path the only timing event is `end_timing`. -/
theorem c5_instrument_timing_discipline (execResult : Except ErrObj ResValue) :
    (commandAction execResult).1.countP (fun ev => isEndTiming ev) = 1 ∧
    (∀ e : ErrObj, execResult = Except.error e →
        commandAction execResult =
          ([TimingEvent.endFailure e, TimingEvent.composeErrorCall e,
            TimingEvent.endTiming],
            CmdOutcome.errorResp (composeError (some e)))) ∧
    (∀ r : ResValue, execResult = Except.ok r →
        commandAction execResult =
          ([TimingEvent.endTiming],
            CmdOutcome.formatted (toResponseFormat r))) := by
  refine ⟨?_, ?_, ?_⟩
  · cases execResult with
    | ok r => rfl
    | error e =>
      simp [commandAction, commandTryBody, runFinally, List.countP_cons,
        isEndTiming]
  · intro e he
    subst he
    rfl
  · intro r hr
    subst hr
    rfl

theorem c5_instrument_timing_discipline_witness :
    commandAction (Except.error errSample) =
      ([TimingEvent.endFailure errSample, TimingEvent.composeErrorCall errSample,
        TimingEvent.endTiming],
        CmdOutcome.errorResp (composeError (some errSample))) :=
  (c5_instrument_timing_discipline (Except.error errSample)).2.1 errSample rfl

end PipGcp
